import Mathlib

set_option autoImplicit false

namespace Cchh

/-- JSON-representable values, as passed around by the approval server
(request bodies, stored details, decision payloads, responses). -/
inductive Json where
  | null : Json
  | bool : Bool → Json
  | num : Int → Json
  | str : String → Json
  | arr : List Json → Json
  | obj : List (String × Json) → Json

/-- Lookup in a string-keyed association list, modelling a Python dict read
(first binding for the key wins). -/
def dlookup {α : Type} (k : String) : List (String × α) → Option α
  | [] => none
  | (k0, v) :: rest => if k0 = k then some v else dlookup k rest

/-- Insert or overwrite a binding, modelling Python dict assignment:
an existing key keeps its position and gets the new value, a new key is
appended at the end (insertion order preserved). -/
def dinsert {α : Type} (k : String) (v : α) : List (String × α) → List (String × α)
  | [] => [(k, v)]
  | (k0, v0) :: rest => if k0 = k then (k, v) :: rest else (k0, v0) :: dinsert k v rest

/-- Remove every binding for a key, modelling Python dict.pop with default. -/
def derase {α : Type} (k : String) : List (String × α) → List (String × α)
  | [] => []
  | (k0, v) :: rest => if k0 = k then derase k rest else (k0, v) :: derase k rest

/-- Python truthiness of a JSON value, as used by the handlers'
request-id guard in approval_server.py. -/
def jsonTruthy : Json → Bool
  | Json.null => false
  | Json.bool b => b
  | Json.num n => n != 0
  | Json.str s => s != ""
  | Json.arr xs => !xs.isEmpty
  | Json.obj fs => !fs.isEmpty

/-- Read a field of a JSON object, modelling details.get(key) in the source. -/
def dictGet (j : Json) (k : String) : Option Json :=
  match j with
  | Json.obj fs => dlookup k fs
  | _ => none

/-- State of ApprovalServer (approval_server.py lines 15-29): the configured
timeout, the three request-keyed maps, and whether the Slack integration is
configured.  A pending future is modelled by the value in pending_approvals:
none while unresolved, some d once set_result stored decision d. -/
structure ServerState where
  timeout_seconds : Nat
  pending_approvals : List (String × Option Json)
  approval_details : List (String × Json)
  session_mapping : List (String × String)
  slack_is_configured : Bool

/-- Decision written by the timeout handler (approval_server.py line 71):
note the hard-coded message, independent of the configured timeout. -/
def timeoutDecision : Json :=
  Json.obj [("behavior", Json.str "deny"),
            ("message", Json.str "Request timed out after 5 minutes")]

/-- Decision written by handle_deny (approval_server.py line 157). -/
def deniedByUserDecision : Json :=
  Json.obj [("behavior", Json.str "deny"),
            ("message", Json.str "Request denied by user")]

/-- Decision written by handle_approve (approval_server.py line 120). -/
def allowDecision (input : Json) : Json :=
  Json.obj [("behavior", Json.str "allow"), ("updatedInput", input)]

/-- Registration step of create_approval_request (approval_server.py
lines 44-49): store a fresh unresolved future, the details, and the
session mapping when the session id is non-empty. -/
def create_register (st : ServerState) (request_id : String) (details : Json)
    (session_id : String) : ServerState :=
  { st with
    pending_approvals := dinsert request_id none st.pending_approvals
    approval_details := dinsert request_id details st.approval_details
    session_mapping :=
      if session_id ≠ "" then dinsert request_id session_id st.session_mapping
      else st.session_mapping }

/-- Cleanup block of create_approval_request (approval_server.py lines 58-62):
pop the request id from all three maps. -/
def cleanup (st : ServerState) (request_id : String) : ServerState :=
  { st with
    pending_approvals := derase request_id st.pending_approvals
    approval_details := derase request_id st.approval_details
    session_mapping := derase request_id st.session_mapping }

/-- Suspension point of create_approval_request (lines 55-62): the coordinator
observes the resolution of its future (none models an exceptional exit such
as cancellation) and the cleanup block runs on every exit path. -/
def await_and_cleanup (st : ServerState) (request_id : String) :
    Option Json × ServerState :=
  ((dlookup request_id st.pending_approvals).bind id, cleanup st request_id)

/-- Stored decision of the request's slot: none when the id is absent or the
future is unresolved, some d once a writer assigned d. -/
def slotDecision (st : ServerState) (request_id : String) : Option Json :=
  (dlookup request_id st.pending_approvals).bind id

/-- Slack notification condition shared by the three resolution paths
(approval_server.py lines 74-75, 123-124, 160-161): the session mapping has a
non-empty id for the request and the integration is configured; the result is
the outcome string handed to send_approval_result. -/
def sessionNotify (st : ServerState) (request_id : String) (outcome : String) :
    Option String :=
  match dlookup request_id st.session_mapping with
  | some s => if s ≠ "" ∧ st.slack_is_configured = true then some outcome else none
  | none => none

/-- Body of the timeout handler after the sleep (approval_server.py
lines 67-83): if the id is still in the table and the future is not done,
set the timeout decision and fire the timeout notification; otherwise do
nothing.  Returns the new state and the notification sent, if any. -/
def timeout_fire (st : ServerState) (request_id : String) :
    ServerState × Option String :=
  match dlookup request_id st.pending_approvals with
  | none => (st, none)
  | some (some _) => (st, none)
  | some none =>
      ({ st with pending_approvals :=
            dinsert request_id (some timeoutDecision) st.pending_approvals },
       sessionNotify st request_id "denied (timeout)")

/-- An HTTP response: status code and JSON body. -/
structure HttpResponse where
  status : Nat
  body : Json

/-- Result of one handler invocation: the server state afterwards, the HTTP
response, and the Slack notification outcome string sent, if any. -/
structure HandlerResult where
  state : ServerState
  response : HttpResponse
  notification : Option String

/-- The 400 response of handle_approve and handle_deny when the body has no
truthy request_id (approval_server.py lines 105-108 and 145-148). -/
def missingRequestIdResponse : HttpResponse :=
  ⟨400, Json.obj [("error", Json.str "Missing request_id")]⟩

/-- The 404 response when the request id is not in the pending table
(approval_server.py lines 110-113 and 150-153). -/
def notFoundResponse : HttpResponse :=
  ⟨404, Json.obj [("error", Json.str "Request not found or already processed")]⟩

/-- The 200 success response of handle_approve (line 134). -/
def approvedResponse : HttpResponse :=
  ⟨200, Json.obj [("status", Json.str "approved")]⟩

/-- The 200 success response of handle_deny (line 171). -/
def deniedResponse : HttpResponse :=
  ⟨200, Json.obj [("status", Json.str "denied")]⟩

/-- Body of handle_approve once the request_id value has been extracted from
the parsed JSON body (approval_server.py lines 103-134): reject a falsy
request_id with 400; reject an id absent from the pending table with 404 (a
non-string id is never a key of the string-keyed table); otherwise set the
allow decision with the stored input if the future is not done, then send the
approved notification and return 200 regardless. -/
def approveWithRid (st : ServerState) (rid_js : Json) : HandlerResult :=
  if jsonTruthy rid_js then
    match rid_js with
    | Json.str request_id =>
        match dlookup request_id st.pending_approvals with
        | none => ⟨st, notFoundResponse, none⟩
        | some slot =>
            let st1 :=
              match slot with
              | none =>
                  let details :=
                    (dlookup request_id st.approval_details).getD (Json.obj [])
                  let input_data := (dictGet details "input").getD (Json.obj [])
                  let pa := dinsert request_id (some (allowDecision input_data))
                    st.pending_approvals
                  { st with pending_approvals := pa }
              | some _ => st
            ⟨st1, approvedResponse, sessionNotify st request_id "approved"⟩
    | _ => ⟨st, notFoundResponse, none⟩
  else
    ⟨st, missingRequestIdResponse, none⟩

/-- handle_approve (approval_server.py lines 99-137) on a parsed JSON object
body: data.get with null default for an absent key, then the guarded
approval logic. -/
def handle_approve (st : ServerState) (data : List (String × Json)) :
    HandlerResult :=
  approveWithRid st ((dlookup "request_id" data).getD Json.null)

/-- Body of handle_deny once the request_id value has been extracted
(approval_server.py lines 143-171), symmetric to approveWithRid with the
denied-by-user decision. -/
def denyWithRid (st : ServerState) (rid_js : Json) : HandlerResult :=
  if jsonTruthy rid_js then
    match rid_js with
    | Json.str request_id =>
        match dlookup request_id st.pending_approvals with
        | none => ⟨st, notFoundResponse, none⟩
        | some slot =>
            let st1 :=
              match slot with
              | none =>
                  let pa := dinsert request_id (some deniedByUserDecision)
                    st.pending_approvals
                  { st with pending_approvals := pa }
              | some _ => st
            ⟨st1, deniedResponse, sessionNotify st request_id "denied"⟩
    | _ => ⟨st, notFoundResponse, none⟩
  else
    ⟨st, missingRequestIdResponse, none⟩

/-- handle_deny (approval_server.py lines 139-174) on a parsed JSON object
body. -/
def handle_deny (st : ServerState) (data : List (String × Json)) :
    HandlerResult :=
  denyWithRid st ((dlookup "request_id" data).getD Json.null)

/-- One element of the GET /pending listing (approval_server.py lines 89-96). -/
def pendingEntryJson (request_id : String) (details : Json) : Json :=
  Json.obj [("request_id", Json.str request_id),
            ("tool_name", (dictGet details "tool_name").getD Json.null),
            ("input", (dictGet details "input").getD Json.null),
            ("tool_use_id", (dictGet details "tool_use_id").getD Json.null)]

/-- handle_pending (approval_server.py lines 85-97): one element per entry of
approval_details, wrapped in an object under the key pending. -/
def handle_pending (st : ServerState) : HttpResponse :=
  ⟨200, Json.obj [("pending",
      Json.arr (st.approval_details.map (fun p => pendingEntryJson p.1 p.2)))]⟩

/-- Request ids appearing in a GET /pending response body. -/
def responsePendingIds (r : HttpResponse) : List String :=
  match r.body with
  | Json.obj [("pending", Json.arr l)] =>
      l.map (fun e =>
        match dictGet e "request_id" with
        | some (Json.str s) => s
        | _ => "")
  | _ => []

/-- Keys of a JSON object, in order. -/
def jsonKeys : Json → List String
  | Json.obj fs => fs.map Prod.fst
  | _ => []

/-- Whether a JSON value is an array. -/
def isJsonArray : Json → Bool
  | Json.arr _ => true
  | _ => false

/-- A resolution attempt on the server: the timeout callback firing, or an
approve or deny request arriving with a parsed body. -/
inductive ResolveOp where
  | timeout (request_id : String) : ResolveOp
  | approve (data : List (String × Json)) : ResolveOp
  | deny (data : List (String × Json)) : ResolveOp

/-- State transition of one resolution attempt. -/
def applyResolveOp (st : ServerState) : ResolveOp → ServerState
  | ResolveOp.timeout rid => (timeout_fire st rid).1
  | ResolveOp.approve data => (handle_approve st data).state
  | ResolveOp.deny data => (handle_deny st data).state

theorem dlookup_dinsert_self {α : Type} (k : String) (v : α)
    (l : List (String × α)) : dlookup k (dinsert k v l) = some v := by
  induction l with
  | nil => simp [dinsert, dlookup]
  | cons p rest ih =>
      obtain ⟨k0, v0⟩ := p
      by_cases h : k0 = k
      · simp [dinsert, h, dlookup]
      · simp [dinsert, h, dlookup, ih]

theorem dlookup_dinsert_ne {α : Type} (k k1 : String) (v : α)
    (l : List (String × α)) (h : k1 ≠ k) :
    dlookup k (dinsert k1 v l) = dlookup k l := by
  induction l with
  | nil => simp [dinsert, dlookup, h]
  | cons p rest ih =>
      obtain ⟨k0, v0⟩ := p
      by_cases h0 : k0 = k1
      · subst h0; simp [dinsert, dlookup, h, ih]
      · simp only [dinsert, dlookup, if_neg h0]
        by_cases h1 : k0 = k
        · simp [dlookup, h1]
        · simp [dlookup, h1, ih]

theorem dlookup_derase_self {α : Type} (k : String) (l : List (String × α)) :
    dlookup k (derase k l) = none := by
  induction l with
  | nil => simp [derase, dlookup]
  | cons p rest ih =>
      obtain ⟨k0, v0⟩ := p
      by_cases h : k0 = k
      · simp [derase, h, ih]
      · simp [derase, dlookup, h, ih]

theorem not_mem_keys_derase {α : Type} (k : String) (l : List (String × α)) :
    k ∉ (derase k l).map Prod.fst := by
  induction l with
  | nil => simp [derase]
  | cons p rest ih =>
      obtain ⟨k0, v0⟩ := p
      by_cases h : k0 = k
      · simpa [derase, h] using ih
      · simp only [derase, if_neg h, List.map_cons, List.mem_cons]
        rintro (he | he)
        · exact h he.symm
        · exact ih he

theorem keys_derase_not_contains {α : Type} (k : String)
    (l : List (String × α)) :
    ((derase k l).map Prod.fst).contains k = false := by
  have hmem := not_mem_keys_derase k l
  have h2 : List.elem k ((derase k l).map Prod.fst) = false := by
    rw [List.elem_eq_mem]
    simpa using hmem
  exact h2

theorem dictGet_pendingEntryJson_id (k : String) (d : Json) :
    dictGet (pendingEntryJson k d) "request_id" = some (Json.str k) := by
  simp [pendingEntryJson, dictGet, dlookup]

theorem responsePendingIds_handle_pending (st : ServerState) :
    responsePendingIds (handle_pending st) = st.approval_details.map Prod.fst := by
  simp only [responsePendingIds, handle_pending, List.map_map]
  refine List.map_congr_left ?_
  intro p _
  simp [Function.comp, dictGet_pendingEntryJson_id]

theorem slotDecision_after_dinsert (st : ServerState) (rid req : String)
    (d : Json) (v : Option Json)
    (hp : dlookup req st.pending_approvals = some none)
    (h : slotDecision st rid = some d) :
    (dlookup rid (dinsert req v st.pending_approvals)).bind id = some d := by
  by_cases hrr : req = rid
  · subst hrr
    rw [slotDecision, hp] at h
    simp at h
  · rw [dlookup_dinsert_ne rid req v st.pending_approvals hrr]
    exact h

theorem handle_approve_state_cases (st : ServerState)
    (data : List (String × Json)) :
    (handle_approve st data).state = st ∨
    ∃ rid input, dlookup rid st.pending_approvals = some none ∧
      (handle_approve st data).state =
        { st with pending_approvals :=
            dinsert rid (some (allowDecision input)) st.pending_approvals } := by
  unfold handle_approve approveWithRid
  by_cases ht : jsonTruthy ((dlookup "request_id" data).getD Json.null) = true
  · rw [if_pos ht]
    cases hj : (dlookup "request_id" data).getD Json.null with
    | str request_id =>
        dsimp only
        cases hp : dlookup request_id st.pending_approvals with
        | none => left; rfl
        | some slot =>
            cases slot with
            | none => right; exact ⟨request_id, _, hp, rfl⟩
            | some d0 => left; rfl
    | null => left; rfl
    | bool b => left; rfl
    | num n => left; rfl
    | arr xs => left; rfl
    | obj fs => left; rfl
  · rw [if_neg ht]; left; rfl

theorem handle_deny_state_cases (st : ServerState)
    (data : List (String × Json)) :
    (handle_deny st data).state = st ∨
    ∃ rid, dlookup rid st.pending_approvals = some none ∧
      (handle_deny st data).state =
        { st with pending_approvals :=
            dinsert rid (some deniedByUserDecision) st.pending_approvals } := by
  unfold handle_deny denyWithRid
  by_cases ht : jsonTruthy ((dlookup "request_id" data).getD Json.null) = true
  · rw [if_pos ht]
    cases hj : (dlookup "request_id" data).getD Json.null with
    | str request_id =>
        dsimp only
        cases hp : dlookup request_id st.pending_approvals with
        | none => left; rfl
        | some slot =>
            cases slot with
            | none => right; exact ⟨request_id, hp, rfl⟩
            | some d0 => left; rfl
    | null => left; rfl
    | bool b => left; rfl
    | num n => left; rfl
    | arr xs => left; rfl
    | obj fs => left; rfl
  · rw [if_neg ht]; left; rfl

theorem timeout_fire_state_cases (st : ServerState) (req : String) :
    (timeout_fire st req).1 = st ∨
    (dlookup req st.pending_approvals = some none ∧
      (timeout_fire st req).1 =
        { st with pending_approvals :=
            dinsert req (some timeoutDecision) st.pending_approvals }) := by
  unfold timeout_fire
  split
  · left; rfl
  · left; rfl
  · rename_i hp
    right; exact ⟨hp, rfl⟩

theorem slotDecision_applyResolveOp_preserved (st : ServerState)
    (op : ResolveOp) (rid : String) (d : Json)
    (h : slotDecision st rid = some d) :
    slotDecision (applyResolveOp st op) rid = some d := by
  cases op with
  | timeout req =>
      rcases timeout_fire_state_cases st req with hc | ⟨hp, hc⟩
      · simpa [applyResolveOp, hc] using h
      · simp only [applyResolveOp, hc, slotDecision]
        exact slotDecision_after_dinsert st rid req d _ hp h
  | approve data =>
      rcases handle_approve_state_cases st data with hc | ⟨req, input, hp, hc⟩
      · simpa [applyResolveOp, hc] using h
      · simp only [applyResolveOp, hc, slotDecision]
        exact slotDecision_after_dinsert st rid req d _ hp h
  | deny data =>
      rcases handle_deny_state_cases st data with hc | ⟨req, hp, hc⟩
      · simpa [applyResolveOp, hc] using h
      · simp only [applyResolveOp, hc, slotDecision]
        exact slotDecision_after_dinsert st rid req d _ hp h

theorem jsonTruthy_str_true (rid : String) (hr : rid ≠ "") :
    jsonTruthy (Json.str rid) = true := by
  simp [jsonTruthy, hr]

theorem handle_approve_already_resolved (st : ServerState) (rid : String)
    (d : Json) (hr : rid ≠ "")
    (hp : dlookup rid st.pending_approvals = some (some d)) :
    handle_approve st [("request_id", Json.str rid)] =
      ⟨st, approvedResponse, sessionNotify st rid "approved"⟩ := by
  have hd : dlookup "request_id" [(("request_id" : String), Json.str rid)] =
      some (Json.str rid) := rfl
  simp only [handle_approve, approveWithRid, hd, Option.getD_some]
  rw [if_pos (jsonTruthy_str_true rid hr)]
  rw [hp]

theorem handle_deny_already_resolved (st : ServerState) (rid : String)
    (d : Json) (hr : rid ≠ "")
    (hp : dlookup rid st.pending_approvals = some (some d)) :
    handle_deny st [("request_id", Json.str rid)] =
      ⟨st, deniedResponse, sessionNotify st rid "denied"⟩ := by
  have hd : dlookup "request_id" [(("request_id" : String), Json.str rid)] =
      some (Json.str rid) := rfl
  simp only [handle_deny, denyWithRid, hd, Option.getD_some]
  rw [if_pos (jsonTruthy_str_true rid hr)]
  rw [hp]

theorem handle_approve_unresolved (st : ServerState) (rid : String)
    (hr : rid ≠ "")
    (hp : dlookup rid st.pending_approvals = some none) :
    handle_approve st [("request_id", Json.str rid)] =
      ⟨{ st with pending_approvals :=
           dinsert rid (some (allowDecision
             ((dictGet ((dlookup rid st.approval_details).getD (Json.obj []))
                "input").getD (Json.obj [])))) st.pending_approvals },
        approvedResponse, sessionNotify st rid "approved"⟩ := by
  have hd : dlookup "request_id" [(("request_id" : String), Json.str rid)] =
      some (Json.str rid) := rfl
  simp only [handle_approve, approveWithRid, hd, Option.getD_some]
  rw [if_pos (jsonTruthy_str_true rid hr)]
  rw [hp]

/-- A concrete server state whose single request r is already resolved by the
timeout decision, with a mapped session and Slack configured. -/
def stResolved : ServerState :=
  ⟨300, [("r", some timeoutDecision)],
   [("r", Json.obj [("tool_name", Json.str "Bash"), ("input", Json.num 1),
                    ("tool_use_id", Json.null)])],
   [("r", "s1")], true⟩

/-- A concrete server state with configured timeout n and one unresolved
pending request r. -/
def stDur (n : Nat) : ServerState :=
  ⟨n, [("r", none)], [("r", Json.obj [])], [], false⟩

/-- C1: for every pending approval request, the decision slot is assigned at
most once: once a decision is stored for a request id, any further sequence
of resolution attempts (timeout callback, explicit approve, explicit deny)
leaves the stored decision unchanged — the first writer wins and every later
resolution attempt performs no mutation of the stored decision. -/
theorem decision_slot_assigned_once (st : ServerState) (rid : String)
    (d : Json) (ops : List ResolveOp)
    (h : slotDecision st rid = some d) :
    slotDecision (ops.foldl applyResolveOp st) rid = some d := by
  induction ops generalizing st with
  | nil => simpa using h
  | cons op rest ih =>
      simp only [List.foldl_cons]
      exact ih _ (slotDecision_applyResolveOp_preserved st op rid d h)

/-- Witness for C1: on a state whose request r already carries the timeout
decision, a later approve, deny and timeout attempt all leave it unchanged. -/
theorem decision_slot_assigned_once_witness :
    slotDecision stResolved "r" = some timeoutDecision ∧
    slotDecision
      ([ResolveOp.approve [("request_id", Json.str "r")],
        ResolveOp.deny [("request_id", Json.str "r")],
        ResolveOp.timeout "r"].foldl applyResolveOp stResolved) "r" =
      some timeoutDecision :=
  ⟨rfl, decision_slot_assigned_once stResolved "r" timeoutDecision _ rfl⟩

/-- C2 counterexample: two servers configured with different timeout
durations (60 and 300 seconds) resolve a timed-out request with the very
same decision, whose message is the hard-coded string "Request timed out
after 5 minutes" — so the message cannot reflect the actual configured
duration, contrary to the claim. -/
theorem timeout_message_ignores_duration :
    (stDur 60).timeout_seconds ≠ (stDur 300).timeout_seconds ∧
    slotDecision (timeout_fire (stDur 60) "r").1 "r" =
      slotDecision (timeout_fire (stDur 300) "r").1 "r" ∧
    slotDecision (timeout_fire (stDur 60) "r").1 "r" =
      some (Json.obj [("behavior", Json.str "deny"),
        ("message", Json.str "Request timed out after 5 minutes")]) :=
  ⟨by decide, rfl, rfl⟩

/-- C2 (amended): when the timeout callback fires on a still-unresolved
pending request, it resolves it with a deny decision — fail-closed, never an
allow decision — whose message is the fixed string "Request timed out after
5 minutes", irrespective of the configured timeout duration. -/
theorem timeout_resolves_deny_fixed_message (st : ServerState) (rid : String)
    (h : dlookup rid st.pending_approvals = some none) :
    slotDecision (timeout_fire st rid).1 rid = some timeoutDecision ∧
    dictGet timeoutDecision "behavior" = some (Json.str "deny") ∧
    dictGet timeoutDecision "message" =
      some (Json.str "Request timed out after 5 minutes") ∧
    ∀ input : Json, timeoutDecision ≠ allowDecision input := by
  refine ⟨?_, rfl, rfl, ?_⟩
  · simp only [timeout_fire, h, slotDecision]
    rw [dlookup_dinsert_self]
    rfl
  · intro input hcon
    have hb := congrArg (fun j => dictGet j "behavior") hcon
    simp [timeoutDecision, allowDecision, dictGet, dlookup] at hb

/-- Witness for C2 (amended) at a server configured with a 60 second
timeout and one unresolved pending request. -/
theorem timeout_resolves_deny_fixed_message_witness :
    dlookup "r" (stDur 60).pending_approvals = some none ∧
    (slotDecision (timeout_fire (stDur 60) "r").1 "r" = some timeoutDecision ∧
     dictGet timeoutDecision "behavior" = some (Json.str "deny") ∧
     dictGet timeoutDecision "message" =
       some (Json.str "Request timed out after 5 minutes") ∧
     ∀ input : Json, timeoutDecision ≠ allowDecision input) :=
  ⟨rfl, timeout_resolves_deny_fixed_message (stDur 60) "r" rfl⟩

/-- C4: after the coordinator observes the resolution of a request and its
guaranteed cleanup block runs, the request id is gone from the pending
table, the details table and the session mapping, and appears in no element
of the GET /pending listing. -/
theorem resolved_request_removed_everywhere (st : ServerState) (rid : String) :
    dlookup rid (await_and_cleanup st rid).2.pending_approvals = none ∧
    dlookup rid (await_and_cleanup st rid).2.approval_details = none ∧
    dlookup rid (await_and_cleanup st rid).2.session_mapping = none ∧
    (responsePendingIds
        (handle_pending (await_and_cleanup st rid).2)).contains rid = false := by
  simp only [await_and_cleanup, cleanup]
  refine ⟨dlookup_derase_self rid st.pending_approvals,
          dlookup_derase_self rid st.approval_details,
          dlookup_derase_self rid st.session_mapping, ?_⟩
  rw [responsePendingIds_handle_pending]
  exact keys_derase_not_contains rid st.approval_details

/-- C3 counterexample: on a request whose slot was already assigned by the
timeout, the approve and deny handlers still send their Slack notification
(approved and denied respectively) even though they lost the race — the
losing path's notification is not skipped. -/
theorem losing_approve_still_notifies :
    slotDecision stResolved "r" = some timeoutDecision ∧
    (handle_approve stResolved [("request_id", Json.str "r")]).notification =
      some "approved" ∧
    (handle_deny stResolved [("request_id", Json.str "r")]).notification =
      some "denied" :=
  ⟨rfl, rfl, rfl⟩

/-- C3 (amended): only the timeout callback skips its notification when it
loses the race (it notifies only when it performed the assignment); the
approve and deny handlers send their notification whenever the request id
is still in the table with a mapped session and Slack configured, even when
the slot was already assigned by another writer. -/
theorem only_timeout_skips_losing_notification (st : ServerState)
    (rid : String) (d : Json) (hr : rid ≠ "")
    (hp : dlookup rid st.pending_approvals = some (some d)) :
    (timeout_fire st rid).2 = none ∧
    (handle_approve st [("request_id", Json.str rid)]).notification =
      sessionNotify st rid "approved" ∧
    (handle_deny st [("request_id", Json.str rid)]).notification =
      sessionNotify st rid "denied" := by
  refine ⟨?_, ?_, ?_⟩
  · simp only [timeout_fire, hp]
  · rw [handle_approve_already_resolved st rid d hr hp]
  · rw [handle_deny_already_resolved st rid d hr hp]

/-- Witness for C3 (amended) on the concrete already-resolved state: the
timeout notification is skipped while approve and deny still notify. -/
theorem only_timeout_skips_losing_notification_witness :
    ("r" : String) ≠ "" ∧
    dlookup "r" stResolved.pending_approvals = some (some timeoutDecision) ∧
    ((timeout_fire stResolved "r").2 = none ∧
     (handle_approve stResolved [("request_id", Json.str "r")]).notification =
       sessionNotify stResolved "r" "approved" ∧
     (handle_deny stResolved [("request_id", Json.str "r")]).notification =
       sessionNotify stResolved "r" "denied") :=
  ⟨by decide, rfl,
   only_timeout_skips_losing_notification stResolved "r" timeoutDecision
     (by decide) rfl⟩

/-- C5 counterexample: approving a request whose slot is already assigned
returns the plain 200 success response status approved — exactly the
response a winning approve returns on an unresolved request — so the caller
receives no distinct AlreadyResolved outcome. -/
theorem already_resolved_returns_plain_success :
    slotDecision stResolved "r" = some timeoutDecision ∧
    (handle_approve stResolved [("request_id", Json.str "r")]).response =
      approvedResponse ∧
    slotDecision (stDur 300) "r" = none ∧
    (handle_approve (stDur 300) [("request_id", Json.str "r")]).response =
      approvedResponse :=
  ⟨rfl, rfl, rfl, rfl⟩

/-- C5 (amended): an approve or deny whose request id is present but whose
slot is already assigned leaves the whole server state — hence the stored
decision — unchanged, and returns the ordinary 200 success response
(status approved / denied), indistinguishable from a winning call; the code
reports no distinct AlreadyResolved outcome. -/
theorem already_resolved_benign_no_mutation (st : ServerState) (rid : String)
    (d : Json) (hr : rid ≠ "")
    (hp : dlookup rid st.pending_approvals = some (some d)) :
    (handle_approve st [("request_id", Json.str rid)]).state = st ∧
    (handle_approve st [("request_id", Json.str rid)]).response =
      approvedResponse ∧
    slotDecision (handle_approve st [("request_id", Json.str rid)]).state rid =
      some d ∧
    (handle_deny st [("request_id", Json.str rid)]).state = st ∧
    (handle_deny st [("request_id", Json.str rid)]).response = deniedResponse ∧
    slotDecision (handle_deny st [("request_id", Json.str rid)]).state rid =
      some d := by
  rw [handle_approve_already_resolved st rid d hr hp,
      handle_deny_already_resolved st rid d hr hp]
  exact ⟨rfl, rfl, by simp [slotDecision, hp], rfl, rfl, by simp [slotDecision, hp]⟩

/-- Witness for C5 (amended) on the concrete already-resolved state. -/
theorem already_resolved_benign_no_mutation_witness :
    ("r" : String) ≠ "" ∧
    dlookup "r" stResolved.pending_approvals = some (some timeoutDecision) ∧
    ((handle_approve stResolved [("request_id", Json.str "r")]).state =
        stResolved ∧
     (handle_approve stResolved [("request_id", Json.str "r")]).response =
        approvedResponse ∧
     slotDecision
        (handle_approve stResolved [("request_id", Json.str "r")]).state "r" =
        some timeoutDecision ∧
     (handle_deny stResolved [("request_id", Json.str "r")]).state =
        stResolved ∧
     (handle_deny stResolved [("request_id", Json.str "r")]).response =
        deniedResponse ∧
     slotDecision
        (handle_deny stResolved [("request_id", Json.str "r")]).state "r" =
        some timeoutDecision) :=
  ⟨by decide, rfl,
   already_resolved_benign_no_mutation stResolved "r" timeoutDecision
     (by decide) rfl⟩

/-- C6: an approve or deny naming a request id absent from the pending table
returns the 404 not-found response, sends no notification, and returns the
server state unchanged (no pending entry, details or session mapping is
touched); the handlers are total functions, so no unhandled exception can
escape. -/
theorem unknown_request_id_not_found (st : ServerState) (rid : String)
    (data : List (String × Json))
    (hd : dlookup "request_id" data = some (Json.str rid))
    (hr : rid ≠ "")
    (hp : dlookup rid st.pending_approvals = none) :
    handle_approve st data = ⟨st, notFoundResponse, none⟩ ∧
    handle_deny st data = ⟨st, notFoundResponse, none⟩ := by
  constructor
  · simp only [handle_approve, approveWithRid, hd, Option.getD_some]
    rw [if_pos (jsonTruthy_str_true rid hr)]
    rw [hp]
  · simp only [handle_deny, denyWithRid, hd, Option.getD_some]
    rw [if_pos (jsonTruthy_str_true rid hr)]
    rw [hp]

/-- Witness for C6: the id x is not pending on the concrete state, so both
handlers answer 404 and change nothing. -/
theorem unknown_request_id_not_found_witness :
    dlookup "request_id" [(("request_id" : String), Json.str "x")] =
      some (Json.str "x") ∧
    ("x" : String) ≠ "" ∧
    dlookup "x" stResolved.pending_approvals = none ∧
    (handle_approve stResolved [("request_id", Json.str "x")] =
      ⟨stResolved, notFoundResponse, none⟩ ∧
     handle_deny stResolved [("request_id", Json.str "x")] =
      ⟨stResolved, notFoundResponse, none⟩) :=
  ⟨rfl, by decide, rfl,
   unknown_request_id_not_found stResolved "x"
     [("request_id", Json.str "x")] rfl (by decide) rfl⟩

/-- C7: creating an approval request whose details carry arguments A under
the input key and then approving it (the HTTP approve path takes no
overriding input) assigns an allow decision whose updatedInput is exactly A,
and the awaiting coordinator observes exactly that decision. -/
theorem approve_round_trip (st : ServerState) (rid : String)
    (details A : Json) (sid : String) (hr : rid ≠ "")
    (hinput : dictGet details "input" = some A) :
    slotDecision
      (handle_approve (create_register st rid details sid)
        [("request_id", Json.str rid)]).state rid = some (allowDecision A) ∧
    (await_and_cleanup
      (handle_approve (create_register st rid details sid)
        [("request_id", Json.str rid)]).state rid).1 =
      some (allowDecision A) := by
  have hp : dlookup rid
      (create_register st rid details sid).pending_approvals = some none := by
    simp [create_register, dlookup_dinsert_self]
  have hdet : dlookup rid
      (create_register st rid details sid).approval_details = some details := by
    simp [create_register, dlookup_dinsert_self]
  rw [handle_approve_unresolved (create_register st rid details sid) rid hr hp]
  rw [hdet]
  simp only [Option.getD_some, hinput]
  constructor
  · simp only [slotDecision]
    rw [dlookup_dinsert_self]
    rfl
  · simp only [await_and_cleanup]
    rw [dlookup_dinsert_self]
    rfl

/-- Witness for C7 with arguments x equal to 1, mirroring the spec's
round-trip example. -/
theorem approve_round_trip_witness :
    ("r" : String) ≠ "" ∧
    dictGet (Json.obj [("input", Json.obj [("x", Json.num 1)])]) "input" =
      some (Json.obj [("x", Json.num 1)]) ∧
    (slotDecision
      (handle_approve
        (create_register ⟨300, [], [], [], false⟩ "r"
          (Json.obj [("input", Json.obj [("x", Json.num 1)])]) "")
        [("request_id", Json.str "r")]).state "r" =
      some (allowDecision (Json.obj [("x", Json.num 1)])) ∧
     (await_and_cleanup
      (handle_approve
        (create_register ⟨300, [], [], [], false⟩ "r"
          (Json.obj [("input", Json.obj [("x", Json.num 1)])]) "")
        [("request_id", Json.str "r")]).state "r").1 =
      some (allowDecision (Json.obj [("x", Json.num 1)]))) :=
  ⟨by decide, rfl,
   approve_round_trip ⟨300, [], [], [], false⟩ "r"
     (Json.obj [("input", Json.obj [("x", Json.num 1)])])
     (Json.obj [("x", Json.num 1)]) "" (by decide) rfl⟩

/-- Details of a first registration under the id r. -/
def detailsOne : Json := Json.obj [("tool_name", Json.str "Bash")]

/-- Details of a second, colliding registration under the same id r. -/
def detailsTwo : Json := Json.obj [("tool_name", Json.str "Edit")]

/-- State after registering the id r twice with different details. -/
def stDupTwice : ServerState :=
  create_register (create_register ⟨300, [], [], [], false⟩ "r" detailsOne "")
    "r" detailsTwo ""

/-- C8 counterexample: registering a second request under an already existing
id raises nothing and silently replaces the stored entry — afterwards the
details are the second registration's and the slot is a fresh unresolved
future; no DuplicateRequestError exists in the code. -/
theorem duplicate_registration_overwrites :
    dlookup "r" stDupTwice.approval_details = some detailsTwo ∧
    detailsTwo ≠ detailsOne ∧
    dlookup "r" stDupTwice.pending_approvals = some none :=
  ⟨rfl, by simp [detailsOne, detailsTwo], rfl⟩

/-- C8 (amended): registration never fails; create_approval_request on an id
that already exists silently overwrites the entry, leaving the new details
and a fresh unresolved slot under that id, whatever was stored before. -/
theorem registration_overwrites_existing (st : ServerState) (rid : String)
    (details : Json) (sid : String) :
    dlookup rid (create_register st rid details sid).approval_details =
      some details ∧
    dlookup rid (create_register st rid details sid).pending_approvals =
      some none := by
  constructor
  · simp only [create_register]
    exact dlookup_dinsert_self rid details st.approval_details
  · simp only [create_register]
    exact dlookup_dinsert_self rid none st.pending_approvals

/-- C9 counterexample: the GET /pending response body is not a JSON array but
an object wrapping the list under the key pending, and each element carries
the keys request_id, tool_name, input and tool_use_id (the arguments appear
under input, with an extra tool_use_id) rather than the claimed shape. -/
theorem pending_response_not_bare_array :
    isJsonArray (handle_pending stResolved).body = false ∧
    (handle_pending stResolved).body =
      Json.obj [("pending", Json.arr [Json.obj
        [("request_id", Json.str "r"), ("tool_name", Json.str "Bash"),
         ("input", Json.num 1), ("tool_use_id", Json.null)]])] :=
  ⟨rfl, rfl⟩

/-- C9 (amended): GET /pending returns 200 with a JSON object holding the
single key pending, whose value is an array containing exactly one element
per currently pending entry; every element is an object with exactly the
keys request_id, tool_name, input and tool_use_id, and the request_id
values are exactly the pending table's keys in order. -/
theorem pending_lists_every_entry (st : ServerState) :
    ∃ L : List Json,
      (handle_pending st).status = 200 ∧
      (handle_pending st).body = Json.obj [("pending", Json.arr L)] ∧
      L.length = st.approval_details.length ∧
      (L.all (fun e => jsonKeys e ==
        ["request_id", "tool_name", "input", "tool_use_id"])) = true ∧
      responsePendingIds (handle_pending st) =
        st.approval_details.map Prod.fst := by
  refine ⟨_, rfl, rfl, by simp [handle_pending], ?_,
          responsePendingIds_handle_pending st⟩
  rw [List.all_eq_true]
  intro e he
  simp only [List.mem_map] at he
  obtain ⟨p, hp, rfl⟩ := he
  rfl

/-- C10: an approve or deny whose parsed JSON body lacks the request_id
field, or carries an empty-string request_id, answers 400 with the error
body Missing request_id, sends no notification, and returns the server
state unchanged — no pending entry is modified and nothing is raised. -/
theorem missing_request_id_bad_request (st : ServerState)
    (data : List (String × Json))
    (h : dlookup "request_id" data = none ∨
         dlookup "request_id" data = some (Json.str "")) :
    handle_approve st data = ⟨st, missingRequestIdResponse, none⟩ ∧
    handle_deny st data = ⟨st, missingRequestIdResponse, none⟩ := by
  rcases h with h | h <;>
    exact ⟨by simp [handle_approve, approveWithRid, h, jsonTruthy],
           by simp [handle_deny, denyWithRid, h, jsonTruthy]⟩

/-- Witness for C10 with an empty JSON body (no request_id at all). -/
theorem missing_request_id_bad_request_witness :
    (dlookup "request_id" ([] : List (String × Json)) = none ∨
     dlookup "request_id" ([] : List (String × Json)) =
       some (Json.str "")) ∧
    (handle_approve stResolved [] =
      ⟨stResolved, missingRequestIdResponse, none⟩ ∧
     handle_deny stResolved [] =
      ⟨stResolved, missingRequestIdResponse, none⟩) :=
  ⟨Or.inl rfl, missing_request_id_bad_request stResolved [] (Or.inl rfl)⟩

end Cchh
